import Mathlib

/-
Shallow embedding of the everest nosqldb unit-of-work subsystem:
  src/everest/repositories/nosqldb/uow.py
  src/everest/repositories/nosqldb/session.py

Modelling conventions:
  - Python object identity is modelled by an explicit `oid` field; equality of
    the Lean `Entity` structure stands for Python object identity, and in-place
    mutation of a shared object is modelled by mapping an update over every
    store that holds a reference to it (see `SessionState.updateEntity`).
  - The instance dictionary `obj.__dict__` used by the fingerprint is modelled
    by `Entity.fields`, a list of name/value pairs in dictionary iteration
    order.  The `id` and `slug` attributes are modelled as separate structure
    fields because the cache operations key on them; the attached
    `__everest__` state manager starts with an underscore, so it is excluded
    from the fingerprint in the source just as it is here by construction.
  - Python exceptions are modelled with `Except Err`; a raised exception
    aborts the operation.
  - `WeakSet` / `WeakValueDictionary` weak references are modelled as plain
    containers; garbage-collection-driven eviction is not modelled.
  - In the source, a few call sites pass fewer arguments than the callee
    accepts (ObjectStateManager is constructed without the tracked object in
    register_new and mark_clean; Session.add and Session.remove call the
    two-argument UnitOfWork methods with a single argument).  The embedding
    resolves these calls to the callee signatures with the obvious intended
    arguments, and the commit / object-iterator access `ent.state` is read as
    the observed state held by the entity's attached state manager.
-/

namespace Everest

/-- The four lifecycle states of OBJECT_STATES in uow.py. -/
inductive ObjectState
  | NEW
  | CLEAN
  | DIRTY
  | DELETED
deriving DecidableEq

/-- Error kinds raised by the subsystem (ValueError / KeyError variants,
distinguished by the message the source formats). -/
inductive Err
  | invalidInitialState (s : ObjectState)
  | invalidTransition (src tgt : ObjectState)
  | alreadyRegistered
  | unregistered (tgt : ObjectState)
  | duplicateKey
  | duplicateSlug
  | entityIdNone
  | keyError
  | notInList
  | attributeError
deriving DecidableEq

/-- Models the CPython built-in string hash as a fixed deterministic function
of the string contents.  Only determinism and dependence on the exact string
value are used by the development; the concrete mixing function is irrelevant. -/
def pyHash (s : String) : Nat :=
  s.data.foldl (fun h c => (h * 31 + c.toNat) % 1000000007) 7

/-- State manager attached to an entity as its `__everest__` attribute.
The source stores a weak reference to the tracked object; here the tracked
object is passed to each operation instead, which is equivalent because the
manager never outlives the entity in the modelled scenarios. -/
structure ObjectStateManager where
  state : ObjectState
  lastStateHash : Nat
deriving DecidableEq

/-- An entity: Python object identity `oid`, the `id` and `slug` attributes,
and the remaining public attributes of its `__dict__` in iteration order,
plus the optional attached `__everest__` state manager. -/
structure Entity where
  oid : Nat
  id : Option Int
  slug : Option String
  fields : List (String × String)
  everest : Option ObjectStateManager := none
deriving DecidableEq

/-- Tests whether a name starts with an underscore.  For the one-character
prefix used by the source this is exactly k.startswith of an underscore. -/
def isUnderscoreName (s : String) : Bool :=
  match s.data with
  | [] => false
  | c :: _ => c = '_'

/-- Embeds ObjectStateManager.__get_state_string: concatenate all public
(name, value) attribute pairs as name:value tokens joined by commas, in
dictionary iteration order, skipping names that start with an underscore. -/
def stateString (e : Entity) : String :=
  String.intercalate (",")
    ((e.fields.filter (fun kv => !(isUnderscoreName kv.1))).map
      (fun kv => kv.1 ++ (":") ++ kv.2))

/-- Embeds ObjectStateManager.__allowed_transitions. -/
def allowedTransitions : List (ObjectState × ObjectState) :=
  [(.NEW, .DIRTY), (.NEW, .DELETED), (.CLEAN, .DIRTY),
   (.CLEAN, .DELETED), (.DIRTY, .DELETED), (.DIRTY, .CLEAN)]

/-- Embeds ObjectStateManager.__init__: only NEW and CLEAN are legal initial
states; the fingerprint baseline is recorded at construction time. -/
def osmInit (e : Entity) (initialState : ObjectState) :
    Except Err ObjectStateManager :=
  if initialState = .NEW ∨ initialState = .CLEAN then
    .ok { state := initialState, lastStateHash := pyHash (stateString e) }
  else
    .error (.invalidInitialState initialState)

/-- Embeds ObjectStateManager.__get_state: the recorded state is returned
unless it is CLEAN, in which case the fingerprint is recomputed and DIRTY is
reported exactly when it differs from the recorded baseline. -/
def osmGetState (m : ObjectStateManager) (e : Entity) : ObjectState :=
  if m.state = .CLEAN then
    if pyHash (stateString e) ≠ m.lastStateHash then .DIRTY else .CLEAN
  else
    m.state

/-- Embeds ObjectStateManager.__set_state: the transition source is the
currently observed (dirty-checked) state; the error message formats the
recorded state. -/
def osmSetState (m : ObjectStateManager) (e : Entity) (s : ObjectState) :
    Except Err ObjectStateManager :=
  if (osmGetState m e, s) ∈ allowedTransitions then
    .ok { m with state := s }
  else
    .error (.invalidTransition m.state s)

/-- Embeds ObjectStateManager.reset_state.  The source assigns through the
`state` property, so the assignment is subject to the transition check of
`__set_state`; only then is the fingerprint baseline recomputed. -/
def osmResetState (m : ObjectStateManager) (e : Entity) :
    Except Err ObjectStateManager := do
  let m' ← osmSetState m e .CLEAN
  .ok { m' with lastStateHash := pyHash (stateString e) }

/-- Observed state of an entity through its attached manager, if any. -/
def entState (e : Entity) : Option ObjectState :=
  e.everest.map (fun m => osmGetState m e)

/-- Repository persistence primitives invoked by UnitOfWork.commit, recorded
as a call log. -/
inductive RepoCall
  | add (e : Entity)
  | replace (e : Entity)
  | remove (e : Entity)
deriving DecidableEq

/-- Modelled from the spec: everest.utils.id_generator is imported by
session.py but its source is not under src/.  Per spec section 4.1 the
allocator yields consecutive integers starting at 0, records the returned
value plus one as the next value, and can be fast-forwarded but never rewound.
The generator protocol is folded into EntityIdGenerator below: `idGenMap`
holds, per class, the value the generator last yielded, and `nextIdMap` is the
source's `__next_id_map`. -/
structure EntityIdGenerator where
  idGenMap : String → Option Nat
  nextIdMap : String → Option Nat

/-- Fresh EntityIdGenerator (both maps empty). -/
def emptyGen : EntityIdGenerator :=
  { idGenMap := fun _ => none, nextIdMap := fun _ => none }

/-- Embeds EntityIdGenerator.__get_id_generator: on first use for a class a
generator is created and advanced once (yielding 0), and that first value is
recorded in `__next_id_map`.  Returns the generator's current (last yielded)
value together with the updated state. -/
def getIdGenerator (g : EntityIdGenerator) (cls : String) :
    Nat × EntityIdGenerator :=
  match g.idGenMap cls with
  | some c => (c, g)
  | none =>
    (0, { idGenMap := fun k => if k = cls then some 0 else g.idGenMap k,
          nextIdMap := fun k => if k = cls then some 0 else g.nextIdMap k })

/-- Embeds EntityIdGenerator.get_next_id: advance the class's generator,
record the yielded value in `__next_id_map` and return it minus one. -/
def getNextId (g : EntityIdGenerator) (cls : String) :
    Int × EntityIdGenerator :=
  let (c, g') := getIdGenerator g cls
  let nxt := c + 1
  (Int.ofNat (nxt - 1),
   { idGenMap := fun k => if k = cls then some nxt else g'.idGenMap k,
     nextIdMap := fun k => if k = cls then some nxt else g'.nextIdMap k })

/-- Embeds EntityIdGenerator.get_current_id: the recorded next value, 0 when
the class was never seen. -/
def getCurrentId (g : EntityIdGenerator) (cls : String) : Int :=
  Int.ofNat ((g.nextIdMap cls).getD 0)

/-- Embeds EntityIdGenerator.set_current_id: send the value into the class's
generator.  The spec-modelled generator raises its cursor to the sent value
and never rewinds; `__next_id_map` is not updated by the source here. -/
def setCurrentId (g : EntityIdGenerator) (cls : String) (v : Nat) :
    EntityIdGenerator :=
  let (c, g') := getIdGenerator g cls
  { g' with idGenMap := fun k => if k = cls then some (max c v) else g'.idGenMap k }

/-- Runs `n` successive get_next_id calls for the given class, returning the
issued ids in call order together with the final allocator state. -/
def runNexts (g : EntityIdGenerator) (cls : String) : Nat → List Int × EntityIdGenerator
  | 0 => ([], g)
  | n + 1 =>
    let (i, g') := getNextId g cls
    let (rest, g'') := runNexts g' cls n
    (i :: rest, g'')

/-- Embeds UnitOfWork.__entity_set_map: a per-class live set, in iteration
order.  defaultdict(WeakSet) semantics: a missing class denotes the empty set. -/
structure UnitOfWork where
  entitySetMap : List (String × List Entity)
deriving DecidableEq

/-- Live set registered for a class (empty for an unknown class). -/
def lookupCls (u : UnitOfWork) (cls : String) : List Entity :=
  ((u.entitySetMap.find? (fun p => p.1 = cls)).map Prod.snd).getD []

/-- Replaces the value stored under the class in the per-class map, appending
a fresh class at the end exactly as a defaultdict lookup would. -/
def updateCls (m : List (String × List Entity)) (cls : String)
    (f : List Entity → List Entity) : List (String × List Entity) :=
  match m with
  | [] => [(cls, f [])]
  | (k, v) :: rest =>
    if k = cls then (k, f v) :: rest else (k, v) :: updateCls rest cls f

/-- WeakSet.add: membership is object identity.  Adding an already-member
object is a no-op in Python; the stored value is refreshed here so that the
Lean value agrees with the mutated shared object. -/
def setAdd (l : List Entity) (e : Entity) : List Entity :=
  if l.any (fun x => x.oid = e.oid) then
    l.map (fun x => if x.oid = e.oid then e else x)
  else
    l ++ [e]

/-- Adds the entity to the class's live set. -/
def UnitOfWork.addToSet (u : UnitOfWork) (cls : String) (e : Entity) : UnitOfWork :=
  ⟨updateCls u.entitySetMap cls (fun l => setAdd l e)⟩

/-- Embeds UnitOfWork.register_new: reject an entity that already carries
state, attach a NEW manager, assign the next repository id when the entity has
none (under the repository lock, modelled by the sequenced id generator), and
add the entity to the live set.  Returns the updated entity value. -/
def UnitOfWork.registerNew (u : UnitOfWork) (g : EntityIdGenerator)
    (cls : String) (e : Entity) :
    Except Err (Entity × UnitOfWork × EntityIdGenerator) :=
  if e.everest.isSome then
    .error .alreadyRegistered
  else
    let m : ObjectStateManager :=
      { state := .NEW, lastStateHash := pyHash (stateString e) }
    let (e', g') :=
      match e.id with
      | none =>
        let (i, g') := getNextId g cls
        ({ e with id := some i, everest := some m }, g')
      | some _ => ({ e with everest := some m }, g)
    .ok (e', u.addToSet cls e', g')

/-- Embeds UnitOfWork.mark_deleted: an unregistered entity is rejected,
otherwise the state property is assigned DELETED and live-set membership is
ensured.  Returns the updated entity value. -/
def UnitOfWork.markDeleted (u : UnitOfWork) (cls : String) (e : Entity) :
    Except Err (Entity × UnitOfWork) :=
  match e.everest with
  | none => .error (.unregistered .DELETED)
  | some m => do
    let m' ← osmSetState m e .DELETED
    let e' := { e with everest := some m' }
    .ok (e', u.addToSet cls e')

/-- Embeds UnitOfWork.mark_dirty. -/
def UnitOfWork.markDirty (u : UnitOfWork) (cls : String) (e : Entity) :
    Except Err (Entity × UnitOfWork) :=
  match e.everest with
  | none => .error (.unregistered .DIRTY)
  | some m => do
    let m' ← osmSetState m e .DIRTY
    let e' := { e with everest := some m' }
    .ok (e', u.addToSet cls e')

/-- Embeds UnitOfWork.__object_iterator: iterate the selected classes' live
sets and yield the entities whose observed state matches. -/
def objectIterator (u : UnitOfWork) (s : ObjectState) (entCls : Option String) :
    List Entity :=
  let keys := match entCls with
    | none => u.entitySetMap.map Prod.fst
    | some c => [c]
  (keys.map (fun k => (lookupCls u k).filter (fun e => entState e = some s))).flatten

/-- Embeds UnitOfWork.get_new. -/
def UnitOfWork.getNew (u : UnitOfWork) (entCls : Option String) : List Entity :=
  objectIterator u .NEW entCls

/-- Embeds UnitOfWork.get_dirty. -/
def UnitOfWork.getDirty (u : UnitOfWork) (entCls : Option String) : List Entity :=
  objectIterator u .DIRTY entCls

/-- Embeds the body of UnitOfWork.commit for one entity: dispatch to the
repository according to the observed state (replace for DIRTY, add for NEW,
remove for DELETED, nothing for CLEAN), then reset the state manager.  The
reset goes through the `state` property and may raise. -/
def commitEntity (e : Entity) : Except Err (Entity × List RepoCall) :=
  match e.everest with
  | none => .error .attributeError
  | some m =>
    let s := osmGetState m e
    let calls : List RepoCall :=
      if s = .DIRTY then [.replace e]
      else if s = .NEW then [.add e]
      else if s = .DELETED then [.remove e]
      else []
    do
      let m' ← osmResetState m e
      .ok ({ e with everest := some m' }, calls)

/-- Commits every entity of one live set, in iteration order. -/
def commitList : List Entity → Except Err (List Entity × List RepoCall)
  | [] => .ok ([], [])
  | e :: rest => do
    let (e', cs) ← commitEntity e
    let (rest', cs') ← commitList rest
    .ok (e' :: rest', cs ++ cs')

/-- Commits every class's live set, in iteration order. -/
def commitUow : List (String × List Entity) →
    Except Err (List (String × List Entity) × List RepoCall)
  | [] => .ok ([], [])
  | (cls, ents) :: rest => do
    let (ents', cs) ← commitList ents
    let (rest', cs') ← commitUow rest
    .ok ((cls, ents') :: rest', cs ++ cs')

/-- Embeds UnitOfWork.commit: under the repository lock, dispatch every entity
of every class's live set according to its observed state and reset each
entity's manager.  The resulting unit of work and the repository call log are
returned; a raised exception aborts the commit. -/
def UnitOfWork.commit (u : UnitOfWork) :
    Except Err (UnitOfWork × List RepoCall) := do
  let (m', calls) ← commitUow u.entitySetMap
  .ok (⟨m'⟩, calls)

/-- Embeds UnitOfWork.rollback: every live set is discarded. -/
def UnitOfWork.rollback (_ : UnitOfWork) : UnitOfWork := ⟨[]⟩

/-- Embeds EntityCache: the strong-reference entity list plus the two weak
value dictionaries, modelled as lookup functions. -/
structure EntityCache where
  entities : List Entity
  idMap : Int → Option Entity
  slugMap : String → Option Entity

/-- Empty EntityCache. -/
def emptyCache : EntityCache :=
  { entities := [], idMap := fun _ => none, slugMap := fun _ => none }

/-- Embeds EntityCache.get_by_id. -/
def EntityCache.getById (c : EntityCache) (i : Int) : Option Entity :=
  c.idMap i

/-- Embeds EntityCache.has_id. -/
def EntityCache.hasId (c : EntityCache) (i : Int) : Bool :=
  (c.idMap i).isSome

/-- Embeds EntityCache.get_by_slug. -/
def EntityCache.getBySlug (c : EntityCache) (s : String) : Option Entity :=
  c.slugMap s

/-- Embeds EntityCache.has_slug. -/
def EntityCache.hasSlug (c : EntityCache) (s : String) : Bool :=
  (c.slugMap s).isSome

/-- Embeds EntityCache.add: a None id is rejected; the id map entry is set
(overwriting any previous entry), the slug map entry is set when the slug is
available, and the entity is appended to the strong-reference list. -/
def EntityCache.add (c : EntityCache) (e : Entity) : Except Err EntityCache :=
  match e.id with
  | none => .error .entityIdNone
  | some i =>
    let idMap' := fun j => if j = i then some e else c.idMap j
    let slugMap' :=
      match e.slug with
      | some s => fun t => if t = s then some e else c.slugMap t
      | none => c.slugMap
    .ok { entities := c.entities ++ [e], idMap := idMap', slugMap := slugMap' }

/-- Embeds EntityCache.remove: `del id_map[id]` raises KeyError when the id is
not a key (a None id is never a key); the slug entry is popped with a default
(absence is not an error); `entities.remove` raises ValueError when the entity
is not in the list. -/
def EntityCache.remove (c : EntityCache) (e : Entity) : Except Err EntityCache :=
  match e.id with
  | none => .error .keyError
  | some i =>
    if (c.idMap i).isNone then .error .keyError
    else
      let idMap' := fun j => if j = i then none else c.idMap j
      let slugMap' :=
        match e.slug with
        | some s => fun t => if t = s then none else c.slugMap t
        | none => c.slugMap
      if c.entities.contains e then
        .ok { entities := c.entities.erase e, idMap := idMap', slugMap := slugMap' }
      else
        .error .notInList

/-- Embeds EntityCache.replace: look up the cached entity sharing the new
entity's id (KeyError when absent), remove it, then add the new entity. -/
def EntityCache.replace (c : EntityCache) (e : Entity) : Except Err EntityCache :=
  match e.id with
  | none => .error .keyError
  | some i =>
    match c.idMap i with
    | none => .error .keyError
    | some old => do
      let c' ← c.remove old
      c'.add e

/-- Embeds Session state: the unit of work, the per-class cache manager and
the repository's id source.  EntityCacheManager initializes a missing class
with an empty cache on first access, which a total function models exactly. -/
structure SessionState where
  uow : UnitOfWork
  cacheMgr : String → EntityCache
  idGen : EntityIdGenerator

/-- Fresh session over an empty repository. -/
def emptySession : SessionState :=
  { uow := ⟨[]⟩, cacheMgr := fun _ => emptyCache, idGen := emptyGen }

/-- Embeds Session.add: reject a non-None id already in the class's cache,
then a non-None slug already in the class's cache, then register the entity
as NEW with the unit of work and index it in the cache.  The duplicate checks
are pure lookups performed before any mutation. -/
def Session.add (st : SessionState) (cls : String) (e : Entity) :
    Except Err SessionState :=
  let cache := st.cacheMgr cls
  if (match e.id with | some i => cache.hasId i | none => false) then
    .error .duplicateKey
  else if (match e.slug with | some s => cache.hasSlug s | none => false) then
    .error .duplicateSlug
  else do
    let (e', uow', g') ← st.uow.registerNew st.idGen cls e
    let cache' ← cache.add e'
    .ok { uow := uow', idGen := g',
          cacheMgr := fun k => if k = cls then cache' else st.cacheMgr k }

/-- Embeds Session.get_by_id: cache lookup only. -/
def Session.getById (st : SessionState) (cls : String) (i : Int) : Option Entity :=
  (st.cacheMgr cls).getById i

/-- Embeds Session.get_by_slug: cache lookup first; on a miss, a linear scan
of the unit of work's current NEW entities of the class, returning the first
whose slug matches. -/
def Session.getBySlug (st : SessionState) (cls : String) (sl : String) :
    Option Entity :=
  match (st.cacheMgr cls).getBySlug sl with
  | some e => some e
  | none => (st.uow.getNew (some cls)).find? (fun x => x.slug = some sl)

/-- Applies an update function to the entity with the given object identity. -/
def mapEntity (n : Nat) (f : Entity → Entity) (e : Entity) : Entity :=
  if e.oid = n then f e else e

/-- Models in-place mutation of the shared entity object with identity `n`:
every store holding a reference to it observes the update.  Lookup keys of
the id and slug maps are not re-indexed, exactly as in the source. -/
def SessionState.updateEntity (st : SessionState) (n : Nat) (f : Entity → Entity) :
    SessionState :=
  { uow := ⟨st.uow.entitySetMap.map (fun p => (p.1, p.2.map (mapEntity n f)))⟩,
    cacheMgr := fun k =>
      let c := st.cacheMgr k
      { entities := c.entities.map (mapEntity n f),
        idMap := fun i => (c.idMap i).map (mapEntity n f),
        slugMap := fun s => (c.slugMap s).map (mapEntity n f) },
    idGen := st.idGen }

/-! Concrete instances used by the claim counterexamples and witnesses. -/

/-- Plain entity with one public field. -/
def eC1base : Entity := ⟨1, some 0, none, [("x", "1")], none⟩

/-- Entity registered as NEW (baseline taken at registration). -/
def eC1new : Entity :=
  { eC1base with
    everest := some { state := .NEW, lastStateHash := pyHash (stateString eC1base) } }

/-- Entity recorded CLEAN with an up-to-date fingerprint baseline. -/
def eC1clean : Entity :=
  { eC1base with
    everest := some { state := .CLEAN, lastStateHash := pyHash (stateString eC1base) } }

/-- Entity recorded DELETED. -/
def eC1del : Entity :=
  { eC1base with
    everest := some { state := .DELETED, lastStateHash := pyHash (stateString eC1base) } }

/-- Entity recorded CLEAN whose fingerprint baseline is stale, so its observed
state is DIRTY. -/
def eC1dirty : Entity :=
  { eC1base with everest := some { state := .CLEAN, lastStateHash := 0 } }

/-- Counterpart of eC1dirty after a successful reset during commit. -/
def eC1dirtyAfter : Entity :=
  { eC1base with
    everest := some { state := .CLEAN, lastStateHash := pyHash (stateString eC1base) } }

/-- Unit of work holding a single NEW entity. -/
def uowC1new : UnitOfWork := ⟨[("Foo", [eC1new])]⟩

/-- Unit of work holding a single CLEAN entity. -/
def uowC1clean : UnitOfWork := ⟨[("Foo", [eC1clean])]⟩

/-- Unit of work holding a single DELETED entity. -/
def uowC1del : UnitOfWork := ⟨[("Foo", [eC1del])]⟩

/-- Unit of work holding a single observed-DIRTY entity. -/
def uowC1dirty : UnitOfWork := ⟨[("Foo", [eC1dirty])]⟩

/-- Manager recorded NEW over an empty-field entity. -/
def mC2 : ObjectStateManager := ⟨.NEW, 0⟩

/-- Entity with no public fields. -/
def eC2 : Entity := ⟨2, none, none, [], none⟩

/-- Entity with one public field, value 1. -/
def eC3 : Entity := ⟨3, none, none, [("a", "1")], none⟩

/-- The same entity after mutating the public field to value 2. -/
def eC3m : Entity := { eC3 with fields := [("a", "2")] }

/-- Manager recorded CLEAN with the baseline of eC3. -/
def mC3 : ObjectStateManager := ⟨.CLEAN, pyHash (stateString eC3)⟩

/-- Entity used by the reset-state counterexample. -/
def eC4 : Entity := ⟨4, some 1, none, [("a", "1")], none⟩

/-- Manager recorded NEW over eC4. -/
def mC4new : ObjectStateManager := ⟨.NEW, pyHash (stateString eC4)⟩

/-- Manager recorded CLEAN over eC4 with a current baseline. -/
def mC4clean : ObjectStateManager := ⟨.CLEAN, pyHash (stateString eC4)⟩

/-- Manager recorded DELETED over eC4. -/
def mC4del : ObjectStateManager := ⟨.DELETED, 0⟩

/-- Manager recorded DIRTY over eC4. -/
def mC4dirty : ObjectStateManager := ⟨.DIRTY, 0⟩

/-- Entity already cached under id 5. -/
def eC5old : Entity := ⟨5, some 5, none, [], none⟩

/-- Cache holding eC5old under id 5. -/
def cC5 : EntityCache :=
  { entities := [eC5old],
    idMap := fun j => if j = 5 then some eC5old else none,
    slugMap := fun _ => none }

/-- Session whose class caches all hold eC5old under id 5. -/
def stC5 : SessionState := { emptySession with cacheMgr := fun _ => cC5 }

/-- A second entity carrying the already-present id 5. -/
def eC5dup : Entity := ⟨6, some 5, none, [], none⟩

/-- Entity with id 5 and slug a. -/
def eC6 : Entity := ⟨11, some 5, some ("a"), [], none⟩

/-- Entity with the same id 5 and slug b. -/
def eC6b : Entity := ⟨12, some 5, some ("b"), [], none⟩

/-- The cache obtained by adding eC6 to the empty cache. -/
def cC6 : EntityCache :=
  { entities := [eC6],
    idMap := fun j => if j = 5 then some eC6 else none,
    slugMap := fun t => if t = ("a") then some eC6 else none }

/-- Entity created with neither id nor slug and one public field. -/
def eC8 : Entity := ⟨7, none, none, [("name", "n")], none⟩

/-- Session state after adding eC8 under class Cls and then mutating the
shared entity object's slug to x (the slug map is not re-indexed). -/
def sessC8 : SessionState :=
  (((Session.add emptySession ("Cls") eC8).toOption).getD emptySession).updateEntity 7
    (fun x => { x with slug := some ("x") })

/-- The value of the shared entity object at lookup time: id 0 assigned at
registration, NEW manager attached, slug mutated to x. -/
def eC8x : Entity :=
  { eC8 with
    id := some 0,
    slug := some ("x"),
    everest := some { state := .NEW, lastStateHash := pyHash (stateString eC8) } }

/-- Entity whose dictionary iterates its two public fields as a then b. -/
def eC9a : Entity := ⟨8, some 1, none, [("a", "1"), ("b", "2")], none⟩

/-- Entity with the same public field set iterated as b then a. -/
def eC9b : Entity := ⟨8, some 1, none, [("b", "2"), ("a", "1")], none⟩

/-- Entity cached under id 5 with slug s. -/
def eC10old : Entity := ⟨13, some 5, some ("s"), [], none⟩

/-- Cache holding eC10old. -/
def cC10 : EntityCache :=
  { entities := [eC10old],
    idMap := fun j => if j = 5 then some eC10old else none,
    slugMap := fun t => if t = ("s") then some eC10old else none }

/-- A distinct entity carrying the already-cached id 5. -/
def eC10new : Entity := ⟨14, some 5, some ("t"), [], none⟩

/-! Theorems. -/

/-- C1: commit is claimed to dispatch every live entity by observed state and
leave all non-deleted entities CLEAN in the live set, dropping deleted ones.
On the code, reset_state assigns through the validating state property, so
commit raises an invalid-transition error at the first NEW, unchanged-CLEAN
or DELETED entity (right after its repository dispatch), and a DELETED entity
is never removed from the live set by commit itself.  Only a unit of work
whose entities are all observed DIRTY commits successfully. -/
theorem C1_commit_raises_after_dispatch :
    uowC1new.commit = .error (.invalidTransition .NEW .CLEAN)
    ∧ uowC1clean.commit = .error (.invalidTransition .CLEAN .CLEAN)
    ∧ uowC1del.commit = .error (.invalidTransition .DELETED .CLEAN)
    ∧ uowC1dirty.commit = .ok (⟨[("Foo", [eC1dirtyAfter])]⟩, [.replace eC1dirty]) :=
  ⟨rfl, rfl, rfl, rfl⟩

/-- C2: set_state succeeds exactly when the pair of the currently observed
(dirty-checked) source state and the target state is one of NEW to DIRTY,
NEW to DELETED, CLEAN to DIRTY, CLEAN to DELETED, DIRTY to DELETED, DIRTY to
CLEAN; every other pair fails with an invalid-transition error, and a
successful call records the target state. -/
theorem C2_set_state_transition_table (m : ObjectStateManager) (e : Entity)
    (t : ObjectState) :
    ((osmSetState m e t).isOk = true ↔
      (osmGetState m e, t) ∈
        ([(.NEW, .DIRTY), (.NEW, .DELETED), (.CLEAN, .DIRTY),
          (.CLEAN, .DELETED), (.DIRTY, .DELETED), (.DIRTY, .CLEAN)] :
          List (ObjectState × ObjectState)))
    ∧ (∀ m', osmSetState m e t = .ok m' → m' = { m with state := t })
    ∧ ((osmSetState m e t).isOk = false →
        osmSetState m e t = .error (.invalidTransition m.state t)) := by
  by_cases h : (osmGetState m e, t) ∈ allowedTransitions
  · rw [osmSetState, if_pos h]
    refine ⟨⟨fun _ => h, fun _ => rfl⟩, fun m' hm => ?_, fun hcon => ?_⟩
    · injection hm with h'
      exact h'.symm
    · simp [Except.isOk, Except.toBool] at hcon
  · rw [osmSetState, if_neg h]
    refine ⟨⟨fun hcon => ?_, fun hmem => absurd hmem h⟩,
            fun m' hm => Except.noConfusion hm, fun _ => rfl⟩
    simp [Except.isOk, Except.toBool] at hcon

/-- C2 witness: a NEW-observed manager accepts the transition to DIRTY. -/
theorem C2_witness : (osmSetState mC2 eC2 .DIRTY).isOk = true :=
  (C2_set_state_transition_table mC2 eC2 .DIRTY).1.mpr (by decide)

/-- C3: for a recorded-CLEAN manager, reading the state recomputes the
fingerprint over the public fields and reports DIRTY exactly when it differs
from the baseline stored at the last reset point (CLEAN exactly when it does
not); for any other recorded state the recorded state is returned unchanged. -/
theorem C3_get_state_dirty_check (m : ObjectStateManager) (e : Entity) :
    (m.state = .CLEAN →
      ((osmGetState m e = .DIRTY ↔ pyHash (stateString e) ≠ m.lastStateHash)
       ∧ (osmGetState m e = .CLEAN ↔ pyHash (stateString e) = m.lastStateHash)))
    ∧ (m.state ≠ .CLEAN → osmGetState m e = m.state) := by
  by_cases h : m.state = .CLEAN
  · by_cases hh : pyHash (stateString e) = m.lastStateHash <;>
      simp [osmGetState, h, hh]
  · simp [osmGetState, h]

/-- C3 witness: a recorded-CLEAN entity whose public field was mutated is
observed DIRTY with no explicit mark, and is observed CLEAN while the
fingerprint still matches. -/
theorem C3_witness :
    osmGetState mC3 eC3m = .DIRTY ∧ osmGetState mC3 eC3 = .CLEAN :=
  ⟨((C3_get_state_dirty_check mC3 eC3m).1 rfl).1.mpr (by decide),
   ((C3_get_state_dirty_check mC3 eC3).1 rfl).2.mpr (by decide)⟩

/-- C4: reset is claimed to set the state to CLEAN unconditionally and never
raise.  On the code, reset_state assigns through the state property, which
validates the transition, so it raises an invalid-transition error whenever
the observed state is NEW, CLEAN or DELETED; only an observed-DIRTY entity
can be reset. -/
theorem C4_reset_state_raises :
    osmResetState mC4new eC4 = .error (.invalidTransition .NEW .CLEAN)
    ∧ osmResetState mC4clean eC4 = .error (.invalidTransition .CLEAN .CLEAN)
    ∧ osmResetState mC4del eC4 = .error (.invalidTransition .DELETED .CLEAN)
    ∧ osmResetState mC4dirty eC4 = .ok ⟨.CLEAN, pyHash (stateString eC4)⟩ :=
  ⟨rfl, rfl, rfl, rfl⟩

/-- C9: the fingerprint is claimed to be invariant under the insertion order
of the public fields.  On the code, the state string concatenates the fields
in dictionary iteration order without sorting, so two entities with the same
set of public name/value pairs in different orders yield different state
strings and different fingerprints, and a baseline taken under one order is
observed DIRTY under the other. -/
theorem C9_fingerprint_is_order_dependent :
    eC9a.fields.Perm eC9b.fields
    ∧ stateString eC9a ≠ stateString eC9b
    ∧ pyHash (stateString eC9a) ≠ pyHash (stateString eC9b)
    ∧ osmGetState { state := .CLEAN, lastStateHash := pyHash (stateString eC9a) }
        eC9b = .DIRTY := by
  refine ⟨by decide, by decide, by decide, by decide⟩

/-- C5: Session.add fails with a duplicate-key error whenever the entity
carries a non-null id or a non-null slug already present in the class's
cache.  The duplicate checks are the first statements of the source, pure
cache lookups performed before the unit of work or the cache is touched, so
a failing call constructs no new session state at all. -/
theorem C5_session_add_duplicate_fails (st : SessionState) (cls : String)
    (e : Entity)
    (hdup : (∃ i, e.id = some i ∧ (st.cacheMgr cls).hasId i = true) ∨
            (∃ s, e.slug = some s ∧ (st.cacheMgr cls).hasSlug s = true)) :
    Session.add st cls e = .error .duplicateKey ∨
    Session.add st cls e = .error .duplicateSlug := by
  cases hcond : (match e.id with
                 | some i => (st.cacheMgr cls).hasId i
                 | none => false) with
  | true =>
    left
    simp [Session.add, hcond]
  | false =>
    rcases hdup with ⟨i, hid, hhas⟩ | ⟨s, hslug, hhas⟩
    · rw [hid] at hcond
      simp only [] at hcond
      rw [hcond] at hhas
      cases hhas
    · right
      simp [Session.add, hcond, hslug, hhas]

/-- C5 witness: adding an entity whose id 5 is already cached fails with a
duplicate error. -/
theorem C5_witness :
    Session.add stC5 ("C") eC5dup = .error .duplicateKey ∨
    Session.add stC5 ("C") eC5dup = .error .duplicateSlug :=
  C5_session_add_duplicate_fails stC5 ("C") eC5dup (Or.inl ⟨5, rfl, by decide⟩)

/-- C10: EntityCache.add raises nothing when the id is already cached: it
overwrites the id-map entry (and the slug-map entry when the new slug is not
null) so that get_by_id returns the newer entity, while the older entity
still remains in the cache's strong-reference entity list. -/
theorem C10_cache_add_overwrites (c : EntityCache) (e old : Entity) (i : Int)
    (hi : e.id = some i) (hold : c.idMap i = some old)
    (hmem : old ∈ c.entities) :
    c.hasId i = true
    ∧ ∃ c', c.add e = .ok c'
        ∧ c'.getById i = some e
        ∧ old ∈ c'.entities
        ∧ e ∈ c'.entities
        ∧ (∀ s, e.slug = some s → c'.getBySlug s = some e) := by
  have hadd : c.add e = .ok
      { entities := c.entities ++ [e],
        idMap := fun j => if j = i then some e else c.idMap j,
        slugMap := match e.slug with
          | some s => fun t => if t = s then some e else c.slugMap t
          | none => c.slugMap } := by
    simp [EntityCache.add, hi]
  refine ⟨by simp [EntityCache.hasId, hold], _, hadd, ?_, ?_, ?_, ?_⟩
  · simp [EntityCache.getById]
  · exact List.mem_append_left _ hmem
  · exact List.mem_append_right _ (List.mem_singleton.mpr rfl)
  · intro s hs
    simp [EntityCache.getBySlug, hs]

/-- C10 witness: adding a second entity carrying the already-cached id 5
succeeds, the newer entity wins the id lookup and the older one stays in the
entity list. -/
theorem C10_witness :
    cC10.hasId 5 = true
    ∧ ∃ c', cC10.add eC10new = .ok c'
        ∧ c'.getById 5 = some eC10new
        ∧ eC10old ∈ c'.entities
        ∧ eC10new ∈ c'.entities
        ∧ (∀ s, eC10new.slug = some s → c'.getBySlug s = some eC10new) :=
  C10_cache_add_overwrites cC10 eC10new eC10old 5 rfl (by decide) (by decide)

/-- Helper: normal form of a successful EntityCache.add. -/
theorem cache_add_eq (c : EntityCache) (e : Entity) (i : Int)
    (hi : e.id = some i) :
    c.add e = .ok
      { entities := c.entities ++ [e],
        idMap := fun j => if j = i then some e else c.idMap j,
        slugMap := match e.slug with
          | some s => fun t => if t = s then some e else c.slugMap t
          | none => c.slugMap } := by
  simp [EntityCache.add, hi]

/-- Helper: normal form of a successful EntityCache.remove. -/
theorem cache_remove_eq (c : EntityCache) (e : Entity) (i : Int)
    (hi : e.id = some i) (hpresent : (c.idMap i).isNone = false)
    (hmem : e ∈ c.entities) :
    c.remove e = .ok
      { entities := c.entities.erase e,
        idMap := fun j => if j = i then none else c.idMap j,
        slugMap := match e.slug with
          | some s => fun t => if t = s then none else c.slugMap t
          | none => c.slugMap } := by
  rcases hsl : e.slug with _ | s0 <;>
    simp [EntityCache.remove, hi, hsl, hpresent, hmem]

/-- Helper: EntityCache.replace is remove of the cached entity sharing the id
followed by add of the new one. -/
theorem cache_replace_eq (c : EntityCache) (e e2 : Entity) (i : Int)
    (hi2 : e2.id = some i) (hfound : c.idMap i = some e)
    (c2 : EntityCache) (hrm : c.remove e = .ok c2) :
    c.replace e2 = c2.add e2 := by
  simp only [EntityCache.replace, hi2, hfound, hrm]
  rfl

/-- C6: after add, the entity is retrievable by its id; after remove, the id
is gone and a second remove fails with the missing-entry KeyError; after
replace with an entity sharing the id, lookup by id yields the new entity
and the old entity is retrievable neither by id nor by slug. -/
theorem C6_cache_round_trip (c c1 : EntityCache) (e e2 : Entity) (i : Int)
    (hi : e.id = some i) (hi2 : e2.id = some i) (hne : e ≠ e2)
    (hfid : ∀ j, c.idMap j ≠ some e)
    (hfslug : ∀ s, c.slugMap s ≠ some e)
    (h1 : c.add e = .ok c1) :
    c1.getById i = some e
    ∧ (∃ c2, c1.remove e = .ok c2 ∧ c2.hasId i = false
        ∧ c2.remove e = .error .keyError)
    ∧ (∃ c3, c1.replace e2 = .ok c3 ∧ c3.getById i = some e2
        ∧ (∀ j, c3.getById j ≠ some e) ∧ (∀ s, c3.getBySlug s ≠ some e)) := by
  have hadd := cache_add_eq c e i hi
  rw [h1] at hadd
  injection hadd with hc1
  have hEnt : c1.entities = c.entities ++ [e] := by rw [hc1]
  have hId : c1.idMap = fun j => if j = i then some e else c.idMap j := by
    rw [hc1]
  have hSlug : c1.slugMap = (match e.slug with
      | some s => fun t => if t = s then some e else c.slugMap t
      | none => c.slugMap) := by
    rw [hc1]
  have hpres : (c1.idMap i).isNone = false := by rw [hId]; simp
  have hmem : e ∈ c1.entities := by rw [hEnt]; simp
  have hrm := cache_remove_eq c1 e i hi hpres hmem
  have hfound : c1.idMap i = some e := by rw [hId]; simp
  refine ⟨by simp [EntityCache.getById, hId], ⟨_, hrm, ?_, ?_⟩, ?_⟩
  · simp [EntityCache.hasId]
  · simp [EntityCache.remove, hi]
  · have hrep := cache_replace_eq c1 e e2 i hi2 hfound _ hrm
    refine ⟨_, hrep.trans (cache_add_eq _ e2 i hi2), ?_, ?_, ?_⟩
    · simp [EntityCache.getById]
    · intro j
      by_cases hj : j = i
      · simp [EntityCache.getById, hj]
        exact fun hc => hne hc.symm
      · simp [EntityCache.getById, hj, hId]
        exact hfid j
    · intro s
      rcases hsl2 : e2.slug with _ | s2
      · rcases hsl : e.slug with _ | s0
        · simp [EntityCache.getBySlug, hsl2, hsl, hSlug]
          exact hfslug s
        · by_cases hs : s = s0
          · simp [EntityCache.getBySlug, hsl2, hsl, hs]
          · simp [EntityCache.getBySlug, hsl2, hsl, hs, hSlug]
            exact hfslug s
      · by_cases hs2 : s = s2
        · simp [EntityCache.getBySlug, hsl2, hs2]
          exact fun hc => hne hc.symm
        · rcases hsl : e.slug with _ | s0
          · simp [EntityCache.getBySlug, hsl2, hs2, hsl, hSlug]
            exact hfslug s
          · by_cases hs : s = s0
            · simp [EntityCache.getBySlug, hsl2, hs2, hsl, hs]
              intro h
              exact absurd (hs.trans h) hs2
            · simp [EntityCache.getBySlug, hsl2, hs2, hsl, hs, hSlug]
              exact hfslug s

/-- C6 witness: the round trip at a concrete cache built by adding an entity
with id 5 and slug a to the empty cache, replaced by a distinct entity with
the same id and slug b. -/
theorem C6_witness :
    cC6.getById 5 = some eC6
    ∧ (∃ c2, cC6.remove eC6 = .ok c2 ∧ c2.hasId 5 = false
        ∧ c2.remove eC6 = .error .keyError)
    ∧ (∃ c3, cC6.replace eC6b = .ok c3 ∧ c3.getById 5 = some eC6b
        ∧ (∀ j, c3.getById j ≠ some eC6) ∧ (∀ s, c3.getBySlug s ≠ some eC6)) :=
  C6_cache_round_trip emptyCache cC6 eC6 eC6b 5 rfl rfl (by decide)
    (fun j => by simp [emptyCache]) (fun s => by simp [emptyCache]) rfl

/-- Helper: unfolding of one allocator step (structure eta for pairs). -/
theorem runNexts_succ (g : EntityIdGenerator) (cls : String) (k : Nat) :
    runNexts g cls (k + 1) =
      ((getNextId g cls).1 :: (runNexts (getNextId g cls).2 cls k).1,
       (runNexts (getNextId g cls).2 cls k).2) := rfl

/-- Helper: from an allocator state whose generator cursor and recorded next
value for the class both equal c, n successive get_next_id calls return
c, c+1, ..., c+n-1 and leave both records at c+n. -/
theorem runNexts_steady (cls : String) :
    ∀ (n c : Nat) (g : EntityIdGenerator),
      g.idGenMap cls = some c → g.nextIdMap cls = some c →
      (runNexts g cls n).1 = (List.range' c n).map Int.ofNat
      ∧ (runNexts g cls n).2.idGenMap cls = some (c + n)
      ∧ (runNexts g cls n).2.nextIdMap cls = some (c + n) := by
  intro n
  induction n with
  | zero =>
    intro c g h1 h2
    exact ⟨rfl, by simpa using h1, by simpa using h2⟩
  | succ k ih =>
    intro c g h1 h2
    have hfst : (getNextId g cls).1 = Int.ofNat c := by
      simp [getNextId, getIdGenerator, h1]
    have hsnd1 : (getNextId g cls).2.idGenMap cls = some (c + 1) := by
      simp [getNextId, getIdGenerator, h1]
    have hsnd2 : (getNextId g cls).2.nextIdMap cls = some (c + 1) := by
      simp [getNextId, getIdGenerator, h1]
    obtain ⟨ha, hb, hc⟩ := ih (c + 1) (getNextId g cls).2 hsnd1 hsnd2
    have hadd : c + 1 + k = c + (k + 1) := by omega
    refine ⟨?_, ?_, ?_⟩
    · rw [runNexts_succ, hfst, ha]
      rfl
    · rw [runNexts_succ]
      rw [hadd] at hb
      exact hb
    · rw [runNexts_succ]
      rw [hadd] at hc
      exact hc

/-- C7: from a fresh allocator, n successive get_next_id calls for a class
return 0, 1, ..., n-1 — pairwise distinct and strictly increasing, the first
issued id being 0 — and get_current_id then returns n, the value the next
call issues; on a fresh allocator get_current_id returns 0. -/
theorem C7_id_allocator_monotonic (cls : String) (n : Nat) :
    (runNexts emptyGen cls n).1 = (List.range n).map Int.ofNat
    ∧ (runNexts emptyGen cls n).1.Pairwise (fun a b => a < b)
    ∧ (runNexts emptyGen cls n).1.Pairwise (fun a b => a ≠ b)
    ∧ getCurrentId (runNexts emptyGen cls n).2 cls = Int.ofNat n
    ∧ (runNexts (runNexts emptyGen cls n).2 cls 1).1 = [Int.ofNat n] := by
  have hpw : ∀ m : Nat,
      ((List.range m).map Int.ofNat).Pairwise (fun a b => a < b) := by
    intro m
    rw [List.pairwise_map]
    exact (List.pairwise_lt_range m).imp (fun h => Int.ofNat_lt.mpr h)
  cases n with
  | zero =>
    exact ⟨rfl, List.Pairwise.nil, List.Pairwise.nil, rfl, rfl⟩
  | succ k =>
    have hfst : (getNextId emptyGen cls).1 = Int.ofNat 0 := by
      simp [getNextId, getIdGenerator, emptyGen]
    have hsnd1 : (getNextId emptyGen cls).2.idGenMap cls = some 1 := by
      simp [getNextId, getIdGenerator, emptyGen]
    have hsnd2 : (getNextId emptyGen cls).2.nextIdMap cls = some 1 := by
      simp [getNextId, getIdGenerator, emptyGen]
    obtain ⟨ha, hb, hc⟩ :=
      runNexts_steady cls k 1 (getNextId emptyGen cls).2 hsnd1 hsnd2
    have hids : (runNexts emptyGen cls (k + 1)).1 =
        (List.range (k + 1)).map Int.ofNat := by
      rw [runNexts_succ, hfst, ha, List.range_eq_range']
      rfl
    have hone : (1 : Nat) + k = k + 1 := by omega
    refine ⟨hids, ?_, ?_, ?_, ?_⟩
    · rw [hids]
      exact hpw (k + 1)
    · rw [hids]
      exact (hpw (k + 1)).imp (fun h => ne_of_lt h)
    · rw [runNexts_succ]
      rw [hone] at hc
      simp [getCurrentId, hc]
    · rw [hone] at hb hc
      obtain ⟨ha2, _, _⟩ :=
        runNexts_steady cls 1 (k + 1) (runNexts emptyGen cls (k + 1)).2 hb hc
      rw [ha2]
      rfl

/-- C8: get_by_slug looks the slug up in the class's cache first and, on a
miss, linearly scans the unit of work's current NEW entities of that class,
returning the first whose slug matches; in particular an entity added with a
null slug whose slug is later set to x is found by get_by_slug before
commit. -/
theorem C8_get_by_slug_fallback :
    (∀ (st : SessionState) (cls sl : String),
        (st.cacheMgr cls).getBySlug sl = none →
        Session.getBySlug st cls sl =
          (st.uow.getNew (some cls)).find? (fun x => x.slug = some sl))
    ∧ Session.getBySlug sessC8 ("Cls") ("x") = some eC8x := by
  constructor
  · intro st cls sl h
    simp [Session.getBySlug, h]
  · rfl

/-- C8 witness: the cache of class Cls misses slug x in the scenario state,
so the fallback scan equation applies there. -/
theorem C8_witness :
    Session.getBySlug sessC8 ("Cls") ("x") =
      (sessC8.uow.getNew (some ("Cls"))).find? (fun x => x.slug = some ("x")) :=
  C8_get_by_slug_fallback.1 sessC8 ("Cls") ("x") (by decide)

end Everest
